import Mathlib

/-!
Shallow embedding of the tgtg-bot repository (src/tgtg) and proofs about it.

Conventions used throughout:
* `whenever.Instant` values are embedded as integer nanoseconds since the epoch
  (the library stores instants at nanosecond precision).
* Python `int` becomes `Int` where subtraction/negative values matter
  (prices, instants) and `Nat` for counts and quantities.
* Fallible code returns `Except`; server interaction is abstracted into an
  explicit environment (an oracle giving the response to every outbound call),
  and recursive request loops take an explicit fuel argument.
* Stateful methods of `Bot` become functions `BotState → BotState × List Effect`
  where `Effect` is a trace of the observable actions (log lines, notification
  publishes, scheduler registrations, calls into `hold`).
-/

namespace Tgtg

/-- An instant in time: integer nanoseconds since the epoch. -/
abbrev Instant := Int

/-! ## models.py: Tag, Packaging, Interval, Favorite, Item -/

/-- `Favorite.Tag` (models.py). -/
inductive Tag where
  | CHECK_AGAIN_LATER
  | ENDING_SOON
  | NOTHING_TO_SAVE_TODAY
  | SOLD_OUT
  | X_ITEMS_LEFT
  | SELLING_FAST
  deriving DecidableEq

/-- `Favorite.Tag.is_selling` (models.py): the tag is one of
`ENDING_SOON`, `SELLING_FAST`, `X_ITEMS_LEFT`. -/
def Tag.is_selling : Tag → Bool
  | .ENDING_SOON | .SELLING_FAST | .X_ITEMS_LEFT => true
  | _ => false

/-- `Favorite.Packaging` (models.py). -/
inductive Packaging where
  | BAG_ALLOWED
  | CANT_BRING_ANYTHING
  | MUST_BRING_BAG
  | MUST_BRING_PACKAGING
  deriving DecidableEq

/-- `Interval` (models.py): a start and end instant. -/
structure Interval where
  start : Instant
  stop : Instant
  deriving DecidableEq

/-- `Favorite` (models.py): the last-observed snapshot of a marketplace listing.
Field defaults in the source: `tag = NOTHING_TO_SAVE_TODAY`, `num_available = 0`,
`pickup_interval = None`, `sold_out_at = None`, `packaging = None`.
attrs `@frozen` derives field-for-field equality, mirrored by `DecidableEq`. -/
structure Favorite where
  id : Nat
  name : String
  tag : Tag
  num_available : Nat
  pickup_interval : Option Interval
  sold_out_at : Option Instant
  packaging : Option Packaging
  deriving DecidableEq

/-- `Favorite.is_interesting` (models.py): some field other than `id`/`name`
differs from its default (`id` and `name` have no defaults, so they are always
non-default; the snapshot is interesting iff the non-default field set is not
contained in `{id, name}`). -/
def Favorite.is_interesting (f : Favorite) : Bool :=
  !(f.tag == Tag.NOTHING_TO_SAVE_TODAY && f.num_available == 0
    && f.pickup_interval.isNone && f.sold_out_at.isNone && f.packaging.isNone)

/-- Modelled from the spec: `Favorite.is_sold_out` is called by bot.py but its
definition is not among the provided sources. The spec's change-detector
section ("item transitions sold-out→selling", sold-out status tag) makes a
snapshot sold out exactly when its status tag is the sold-out tag. -/
def Favorite.is_sold_out (f : Favorite) : Bool :=
  f.tag == Tag.SOLD_OUT

/-- Modelled from the spec: `Favorite.is_selling` is called by bot.py but its
definition is not among the provided sources; the source does define
`Tag.is_selling`, which the spec's "selling" state refers to. -/
def Favorite.is_selling (f : Favorite) : Bool :=
  f.tag.is_selling

/-- Modelled from the spec: `Favorite.is_check_again_later` is called by bot.py
but its definition is not among the provided sources. The spec speaks of "the
item's status tag is no longer / becomes 'check again later'", i.e. the status
tag is the check-again-later tag. -/
def Favorite.is_check_again_later (f : Favorite) : Bool :=
  f.tag == Tag.CHECK_AGAIN_LATER

/-- `Item` (models.py): extends `Favorite` with `purchase_limit`
(`user_purchase_limit`), `next_drop`, `blocked_until`. -/
structure Item extends Favorite where
  purchase_limit : Option Nat
  next_drop : Option Instant
  blocked_until : Option Instant
  deriving DecidableEq

/-- `Item.max_quantity` (models.py):
`min(self.num_available, self.purchase_limit or self.num_available)`.
Python `or` treats both `None` and `0` as falsy. -/
def Item.max_quantity (i : Item) : Nat :=
  min i.num_available
    (match i.purchase_limit with
      | none => i.num_available
      | some 0 => i.num_available
      | some l => l)

/-! ## models.py: Price, Reservation -/

/-- `Price` (models.py): currency code, decimal exponent, integer minor units. -/
structure Price where
  code : String
  decimals : Nat
  minor_units : Int
  deriving DecidableEq

/-- The `ValueError("Incompatible currencies")` raised by `Price.__add__` /
`Price.__sub__`. -/
inductive PriceErr where
  | incompatibleCurrencies
  deriving DecidableEq

/-- `Price.__add__` (models.py): raises on mismatched code or decimals,
otherwise replaces `minor_units` with the sum. -/
def Price.add (p q : Price) : Except PriceErr Price :=
  if p.code ≠ q.code ∨ p.decimals ≠ q.decimals then
    .error .incompatibleCurrencies
  else
    .ok { p with minor_units := p.minor_units + q.minor_units }

/-- `Price.__sub__` (models.py): raises on mismatched code or decimals,
otherwise replaces `minor_units` with the difference. -/
def Price.sub (p q : Price) : Except PriceErr Price :=
  if p.code ≠ q.code ∨ p.decimals ≠ q.decimals then
    .error .incompatibleCurrencies
  else
    .ok { p with minor_units := p.minor_units - q.minor_units }

/-- `Reservation.State` (models.py): only `RESERVED`. -/
inductive ReservationState where
  | RESERVED
  deriving DecidableEq

/-- `Reservation` (models.py). -/
structure Reservation where
  id : String
  item_id : Nat
  state : ReservationState
  quantity : Nat
  total_price : Price
  reserved_at : Instant
  deriving DecidableEq

/-- `Reservation.TTL` (models.py): 4 minutes, in nanoseconds. -/
def reservationTTL : Int := 4 * 60 * 1000000000

/-- `Reservation.expires_at` (models.py): `reserved_at + TTL`. -/
def Reservation.expires_at (r : Reservation) : Instant :=
  r.reserved_at + reservationTTL

/-! ## client.py: the denomination split computed by `TgtgClient.pay`

```
num_ones = max(4, reservation.total_price.minor_units // voucher.amount.minor_units)
div, mod = divmod(reservation.total_price.minor_units - num_ones, voucher.amount.minor_units)
amounts = [voucher.amount.minor_units] * div
if mod:
    amounts.append(mod)
amounts.extend(repeat(1, num_ones))
```

Python `//` and `divmod` are floor division / floor modulus, i.e. `Int.fdiv`
and `Int.fmod`; a Python list multiplied by a negative int is empty, matching
`List.replicate ·.toNat`. -/

/-- The list of authorization amounts `TgtgClient.pay` computes for a total
price of `total` minor units paid out of a voucher worth `voucher` minor
units. -/
def payAmounts (total voucher : Int) : List Int :=
  let numOnes : Int := max 4 (total.fdiv voucher)
  let d : Int := (total - numOnes).fdiv voucher
  let m : Int := (total - numOnes).fmod voucher
  List.replicate d.toNat voucher
    ++ (if m = 0 then [] else [m])
    ++ List.replicate numOnes.toNat 1

/-! ## client.py: response classification in `TgtgClient._post`

The `match r.status_code, endpoint:` statement of `_post`, in source order.
The body is abstracted to the shapes the match inspects: empty content, a
single-error-code JSON body, or anything else. -/

/-- The endpoints of `TgtgApi` (api.py) that the `_post` match statement
distinguishes, plus a catch-all for the rest. -/
inductive Endpoint where
  | USER_EMAIL_CHANGE
  | ITEM_STATUS
  | TOKEN_REFRESH
  | AUTH_BY_EMAIL
  | AUTH_BY_POLLING
  | USER_DATA_EXPORT
  | USER_DELETE
  | USER_SET_DEVICE
  | ITEM_FAVORITE
  | FAVORITES
  | ORDER_CREATE
  | OTHER
  deriving DecidableEq

/-- `TgtgApi.include_credentials` (api.py): every endpoint except
`AUTH_BY_EMAIL` and `AUTH_BY_POLLING`. -/
def Endpoint.include_credentials : Endpoint → Bool
  | .AUTH_BY_EMAIL | .AUTH_BY_POLLING => false
  | _ => true

/-- The fire-and-forget endpoints whose empty 200 response `_post` turns into
`{}` (client.py `case HTTPStatus.OK, TgtgApi.USER_DATA_EXPORT | ...`). -/
def Endpoint.fireAndForget : Endpoint → Bool
  | .USER_DATA_EXPORT | .USER_DELETE | .USER_EMAIL_CHANGE
  | .USER_SET_DEVICE | .ITEM_FAVORITE => true
  | _ => false

/-- A response body, abstracted to the shapes `_post`'s match inspects:
no content, a `{"errors": [{"code": c}]}` body, or anything else. -/
inductive Body where
  | empty
  | errorsCode (c : String)
  | other
  deriving DecidableEq

/-- An HTTP response as `_post` sees it: status code, the endpoint that was
called, whether the `X-DD-B` bot-challenge marker header is present, and the
body shape. -/
structure HttpResp where
  status : Nat
  endpoint : Endpoint
  hasDDB : Bool
  body : Body
  deriving DecidableEq

/-- The observable side effects of one pass through `_post`'s match. -/
inductive PipeEffect where
  | logWarning
  | logDebugText
  | ntfyCaptchaAlert
  | schedulerStop
  | logError
  deriving DecidableEq

/-- What one pass through `_post`'s match decides to do. -/
inductive ClassifyResult where
  | emailChangeError
  | validationError
  /-- the 401 branch: force a credential refresh and resend the request -/
  | refreshAndRetry
  | captcha
  | unauthorizedError
  | itemDeletedError
  | itemDisabledError
  /-- empty-body success normalized to `{}` -/
  | okEmpty
  | okBody
  /-- the default branch: log the error and `raise_for_status` -/
  | raiseStatus
  deriving DecidableEq

/-- The `match r.status_code, endpoint:` statement of `TgtgClient._post`
(client.py), cases in source order, paired with the effects each branch
performs before raising/returning. -/
def classify (r : HttpResp) : ClassifyResult × List PipeEffect :=
  if r.status = 400 ∧ r.endpoint = .USER_EMAIL_CHANGE
      ∧ r.body = .errorsCode "INVALID_EMAIL_CHANGE_REQUEST" then
    (.emailChangeError, [])
  else if r.status = 400 ∧ r.endpoint = .ITEM_STATUS
      ∧ r.body = .errorsCode "VALIDATION_ERROR" then
    (.validationError, [])
  else if r.status = 401 ∧ r.endpoint.include_credentials = true
      ∧ r.endpoint ≠ .TOKEN_REFRESH then
    (.refreshAndRetry, [.logWarning])
  else if r.status = 403 ∧ r.hasDDB = true then
    (.captcha, [.logDebugText, .ntfyCaptchaAlert, .schedulerStop])
  else if r.status = 403 ∧ r.body = .errorsCode "UNAUTHORIZED" then
    (.unauthorizedError, [])
  else if r.status = 410 ∧ r.endpoint = .ITEM_STATUS
      ∧ r.body = .errorsCode "ENTITY_DELETED" then
    (.itemDeletedError, [])
  else if r.status = 410 ∧ r.endpoint = .ITEM_STATUS
      ∧ r.body = .errorsCode "ENTITY_DISABLED" then
    (.itemDisabledError, [])
  else if r.status = 202 ∧ r.endpoint = .AUTH_BY_POLLING ∧ r.body = .empty then
    (.okEmpty, [])
  else if r.status = 200 ∧ r.endpoint.fireAndForget = true ∧ r.body = .empty then
    (.okEmpty, [])
  else if r.status = 200 then
    (.okBody, [])
  else
    (.raiseStatus, [.logError])

/-! ## client.py: the refresh-and-resend loop of `_post`

`_post`'s 401 branch forces a credential refresh and re-invokes `_post` with
the same arguments; before every send, `_post` performs a non-forced refresh
(`refresh_credentials()`) that actually refreshes only when the current access
token is expired. The environment supplies the response to the n-th send, the
outcome of the n-th token-refresh POST, and whether the non-forced refresh
before the n-th send triggers. The real recursion is unbounded, so the model
takes fuel; `fuelOut` marks a run that was still recursing. -/

/-- How one `refresh_credentials` call ends: success, a `TgtgApiError`
(the only kind the 401 branch converts to `ValueError("Invalid credentials")`),
or some other exception (which propagates unchanged). -/
inductive RefreshResult where
  | success
  | apiError
  | otherError
  deriving DecidableEq

/-- Environment of one `_post(endpoint, ...)` call chain on a fixed
credential-bearing, non-refresh endpoint. -/
structure PostEnv where
  /-- response to the n-th send of the request (0-based) -/
  resp : Nat → HttpResp
  /-- whether the non-forced pre-send refresh before the n-th send triggers
  (i.e. `credentials.needs_refresh()`) -/
  needsRefresh : Nat → Bool
  /-- outcome of the n-th token-refresh POST actually performed -/
  refreshResult : Nat → RefreshResult

/-- How a `_post` call chain ends. -/
inductive PostOutcome where
  | ok (r : HttpResp)
  | classified (c : ClassifyResult)
  /-- `ValueError("Invalid credentials")`: the forced refresh in the 401 branch
  failed with a `TgtgApiError` -/
  | invalidCredentials
  /-- the non-forced pre-send refresh raised; the exception propagates -/
  | preRefreshError (e : RefreshResult)
  /-- the forced refresh raised something that is not a `TgtgApiError` -/
  | refreshExnPropagated
  | fuelOut
  deriving DecidableEq

/-- The `_post` call chain (client.py): sends, classifies, and on
`refreshAndRetry` forces a refresh and re-invokes itself. Returns the final
outcome together with the number of sends and of forced refreshes performed.
`sendIdx`/`refIdx` index into the environment's oracles. -/
def postRun (env : PostEnv) (fuel : Nat) (sendIdx refIdx : Nat) :
    PostOutcome × Nat × Nat :=
  match fuel with
  | 0 => (.fuelOut, 0, 0)
  | fuel + 1 =>
    if env.needsRefresh sendIdx ∧ env.refreshResult refIdx ≠ .success then
      (.preRefreshError (env.refreshResult refIdx), 0, 0)
    else
      let refIdx1 := if env.needsRefresh sendIdx then refIdx + 1 else refIdx
      let r := env.resp sendIdx
      match (classify r).1 with
      | .refreshAndRetry =>
        match env.refreshResult refIdx1 with
        | .success =>
          let next := postRun env fuel (sendIdx + 1) (refIdx1 + 1)
          (next.1, next.2.1 + 1, next.2.2 + 1)
        | .apiError => (.invalidCredentials, 1, 1)
        | .otherError => (.refreshExnPropagated, 1, 1)
      | .okBody => (.ok r, 1, 0)
      | .okEmpty => (.ok r, 1, 0)
      | c => (.classified c, 1, 0)

/-! ## client.py: `TgtgClient.reserve`

`reserve` posts a create-order request and dispatches on the body `state`;
the `INSUFFICIENT_STOCK` and `OVER_USER_WINDOW_LIMIT` branches re-fetch the
item and re-invoke `reserve` with `item.max_quantity`. The environment
supplies the body state of the n-th create-order call and the item returned
by the n-th `get_item` fetch (calls are numbered by attempt). -/

/-- The domain errors `reserve` can raise (errors.py), plus a marker for a
failed Python `assert`. -/
inductive TgtgErr where
  | saleClosed
  | soldOut
  | reservationBlocked
  | limitExceeded
  | apiError
  | assertFailed
  deriving DecidableEq

/-- The `state` field of a create-order response body. -/
inductive OrderResp where
  | saleClosed
  | soldOut
  | userBlocked
  | insufficientStock
  | overUserWindowLimit
  | success (r : Reservation)
  | other
  deriving DecidableEq

/-- Environment of one `reserve` call chain for a fixed item id. -/
structure ReserveEnv where
  /-- body state of the create-order request of attempt n, as a function of
  the quantity requested -/
  respond : Nat → Nat → OrderResp
  /-- result of the `get_item` re-fetch performed during attempt n -/
  getItem : Nat → Item

/-- How a `reserve` call chain ends. -/
inductive ReserveOutcome where
  | ok (r : Reservation)
  | err (e : TgtgErr)
  | fuelOut
  deriving DecidableEq

/-- `TgtgClient.reserve` (client.py): returns the outcome together with the
trace of quantities passed to the create-order endpoint, first call first.
`n` numbers the attempt; the real recursion is unbounded, so the model takes
fuel. -/
def reserveRun (env : ReserveEnv) (fuel : Nat) (n q : Nat) :
    ReserveOutcome × List Nat :=
  match fuel with
  | 0 => (.fuelOut, [])
  | fuel + 1 =>
    match env.respond n q with
    | .saleClosed => (.err .saleClosed, [q])
    | .soldOut => (.err .soldOut, [q])
    | .userBlocked =>
      -- re-fetches the item, asserts `blocked_until is not None`, logs, raises
      if (env.getItem n).blocked_until = none then (.err .assertFailed, [q])
      else (.err .reservationBlocked, [q])
    | .insufficientStock =>
      -- re-fetches the item, logs, recurses at `item.max_quantity`
      let item := env.getItem n
      let next := reserveRun env fuel (n + 1) item.max_quantity
      (next.1, q :: next.2)
    | .overUserWindowLimit =>
      -- re-fetches the item, logs, asserts `purchase_limit is not None`;
      -- raises `TgtgLimitExceededError` when `quantity <= item.purchase_limit`,
      -- otherwise recurses at `item.max_quantity`
      let item := env.getItem n
      match item.purchase_limit with
      | none => (.err .assertFailed, [q])
      | some l =>
        if q ≤ l then (.err .limitExceeded, [q])
        else
          let next := reserveRun env fuel (n + 1) item.max_quantity
          (next.1, q :: next.2)
    | .success r => (.ok r, [q])
    | .other => (.err .apiError, [q])

/-! ## bot.py: state, effects, and the `Bot` methods

`Bot` keeps three pieces of per-item state: `tracked_items`
(`dict[int, Favorite | None]`, embedded as `Nat → Option (Option Favorite)`
where the outer `Option` is map membership), `held_items`
(`defaultdict[int, deque[Reservation]]`), and `scheduled_snipes`
(`dict[int, Instant | None]`). Methods are embedded as state transformers
that also emit a trace of observable effects; a call into another `Bot`
method (`hold`) or into the scheduler appears as an effect in the trace. -/

/-- `Bot`'s mutable state. -/
structure BotState where
  tracked : Nat → Option (Option Favorite)
  held : Nat → List Reservation
  snipes : Nat → Option (Option Instant)

/-- loguru severities used by bot.py. -/
inductive LogLevel where
  | debug
  | info
  | warning
  | error
  | success
  deriving DecidableEq

/-- Which log line of bot.py was emitted. -/
inductive LogEvent where
  /-- "Changed: ..." -/
  | changed
  /-- first sighting of an already-tracked id (`fave.colorize()`) -/
  | firstSight
  /-- "Inactive: ..." / "Unknown: ..." -/
  | unknownOrInactive
  /-- "Updated: ..." (item status disagrees with the favorites page) -/
  | updated
  /-- "Snipe scheduled for ..." -/
  | snipeScheduled
  /-- "No upcoming drop" -/
  | noUpcomingDrop
  /-- a `ConflictingIdError` was caught and logged -/
  | conflictingId
  /-- "Untracking item ..." -/
  | untracking
  /-- a successful reservation (`reservation.colorize()`) -/
  | heldOk
  /-- a `TgtgApiError` from `reserve` was logged -/
  | reserveFailed
  deriving DecidableEq

/-- apscheduler conflict policies used by bot.py. -/
inductive ConflictPolicy where
  | exception
  | replace
  | doNothing
  deriving DecidableEq

/-- Observable actions of a `Bot` method. -/
inductive Effect where
  | log (lvl : LogLevel) (ev : LogEvent)
  /-- `ntfy.publish(f"Held: {quantity}x {name}", ...)` -/
  | ntfyHeld (quantity : Nat) (name : String)
  /-- `client.unfavorite(item_id)` -/
  | unfavorite (item_id : Nat)
  /-- `await self.hold(item)` -/
  | holdCalled (item : Item)
  /-- `scheduler.add_schedule(..., id=jobId, DateTrigger(time), conflict_policy=policy)` -/
  | addSchedule (jobId : String) (time : Instant) (policy : ConflictPolicy)
  deriving DecidableEq

/-- `Bot.CATCH_RESERVATION_DELAY` (bot.py): 1 second, in nanoseconds. -/
def CATCH_RESERVATION_DELAY : Int := 1000000000

/-- `Bot.API_FLAPPING_COOLDOWN` (bot.py): 2 minutes, in nanoseconds. -/
def API_FLAPPING_COOLDOWN : Int := 120 * 1000000000

/-- The job id `Bot._schedule_catch` uses: `f"catch-reservation-{reservation.id}"`. -/
def catchJobId (r : Reservation) : String :=
  "catch-reservation-" ++ r.id

/-- The job id of a snipe job: `f"snipe-item-{item.id}"`. -/
def snipeJobId (i : Nat) : String :=
  "snipe-item-" ++ toString i

/-- The job id `Bot._del_scheduled_snipe` uses: `f"del-scheduled-snipe-{item_id}"`. -/
def delSnipeJobId (i : Nat) : String :=
  "del-scheduled-snipe-" ++ toString i

/-- `whenever`'s `Instant.round(mode="half_ceil")` with the default unit
(`"second"`) and increment 1: round to the nearest whole second, a tie at
exactly half a second rounding up (toward +infinity). On nanosecond-valued
instants: floor((t + 0.5 s) / 1 s) seconds. -/
def roundHalfCeil (t : Instant) : Instant :=
  ((t + 500000000).fdiv 1000000000) * 1000000000

/-- `Bot._untrack_item` (bot.py): log a warning, unfavorite, delete the item
from `tracked_items`. -/
def untrackItem (i : Nat) (s : BotState) : BotState × List Effect :=
  ({ s with tracked := Function.update s.tracked i none },
   [.log .warning .untracking, .unfavorite i])

/-- `Bot.hold` (bot.py), one invocation, given the outcome of
`client.reserve(item, item.max_quantity)`. On a `TgtgApiError`: log it, and
untrack the item iff the error is `TgtgLimitExceededError`; return `None`.
On success: log, publish a notification, append the reservation to
`held_items[item.id]`, and arm the catch job at `expires_at +
CATCH_RESERVATION_DELAY` with the `exception` conflict policy. -/
def holdRun (outcome : Except TgtgErr Reservation) (item : Item) (s : BotState) :
    BotState × List Effect × Option Reservation :=
  match outcome with
  | .error e =>
    if e = .limitExceeded then
      let u := untrackItem item.id s
      (u.1, .log .error .reserveFailed :: u.2, none)
    else
      (s, [.log .error .reserveFailed], none)
  | .ok r =>
    ({ s with held := Function.update s.held item.id (s.held item.id ++ [r]) },
     [.log .success .heldOk,
      .ntfyHeld r.quantity item.name,
      .addSchedule (catchJobId r) (r.expires_at + CATCH_RESERVATION_DELAY)
        .exception],
     some r)

/-- The result of a `Bot.catch` invocation: a returned value, or the
`ValueError` that `deque.remove` raises when the superseded reservation is
not in the deque. -/
inductive CatchResult where
  | ret (r : Option Reservation)
  | raisedValueError
  deriving DecidableEq

/-- `deque.remove` (used by `Bot.catch`'s `finally`): remove the first
occurrence, raising `ValueError` when absent. -/
def removeHeld (i : Nat) (x : Reservation) (s : BotState) : Option BotState :=
  if x ∈ s.held i then
    some { s with held := Function.update s.held i ((s.held i).erase x) }
  else
    none

/-- `Bot.catch` (bot.py), one invocation, given the outcome of
`client.reserve(held.item_id, held.quantity)`. On a `TgtgApiError`: log it
(warning for `TgtgSaleClosedError`, error otherwise) and untrack the item iff
the error is `TgtgLimitExceededError`. On success: log, append the new
reservation and arm its catch job. In every case the `finally` block then
removes the superseded reservation from `held_items[held.item_id]`. -/
def catchRun (outcome : Except TgtgErr Reservation) (held : Reservation)
    (s : BotState) : BotState × List Effect × CatchResult :=
  match outcome with
  | .error e =>
    let lvl : LogLevel := if e = .saleClosed then .warning else .error
    let step :=
      if e = .limitExceeded then
        let u := untrackItem held.item_id s
        (u.1, Effect.log lvl .reserveFailed :: u.2)
      else
        (s, [Effect.log lvl .reserveFailed])
    match removeHeld held.item_id held step.1 with
    | some s2 => (s2, step.2, .ret none)
    | none => (step.1, step.2, .raisedValueError)
  | .ok r =>
    let s1 :=
      { s with held :=
          Function.update s.held held.item_id (s.held held.item_id ++ [r]) }
    let effs : List Effect :=
      [.log .success .heldOk,
       .addSchedule (catchJobId r) (r.expires_at + CATCH_RESERVATION_DELAY)
         .exception]
    match removeHeld held.item_id held s1 with
    | some s2 => (s2, effs, .ret (some r))
    | none => (s1, effs, .raisedValueError)

/-! ## bot.py: `Bot.check_favorites.process_favorite`

The per-item change-detection closure, lines 184-273 of bot.py. The
environment supplies the static preference sets (`items.ignored`,
`items.inactive`), the `get_item` fetch result (called at most once per
invocation, keyed by the favorite's id), whether registering the snipe job
raises `ConflictingIdError`, and the current instant (used by
`_del_scheduled_snipe`'s trigger). -/

/-- Environment of one `process_favorite` invocation. -/
structure FavEnv where
  ignored : Nat → Bool
  inactive : Nat → Bool
  getItem : Nat → Item
  snipeConflict : Bool
  now : Instant

/-- First flapping suppression (bot.py lines 188-197): the stored snapshot is
sold out, the new one is selling, and its availability equals the quantity of
some currently held reservation. (`reversed(...)` feeds Python `any`, which is
order-independent; the model keeps the reversal.) -/
def suppressSelling (old fave : Favorite) (heldList : List Reservation) : Bool :=
  old.is_sold_out && fave.is_selling
    && heldList.reverse.any (fun r => fave.num_available == r.quantity)

/-- Second flapping suppression (bot.py lines 198-208): both snapshots are
sold out, the new one carries a `sold_out_at`, the held deque is nonempty, and
`sold_out_at` is strictly earlier than the most recent held reservation's
`reserved_at` rounded with `round(mode="half_ceil")`. -/
def suppressSoldOutAt (old fave : Favorite) (heldList : List Reservation) : Bool :=
  old.is_sold_out && fave.is_sold_out
    && (match fave.sold_out_at, heldList.getLast? with
        | some t, some last => decide (t < roundHalfCeil last.reserved_at)
        | _, _ => false)

/-- The condition that lowers the "Changed" log line to debug severity
(bot.py lines 214-225): the change looks like the expected side effect of a
reservation the bot itself just made. -/
def loweredSeverity (old fave : Favorite) (heldList : List Reservation) : Bool :=
  (old.is_check_again_later || old.is_selling || old.is_sold_out)
    && fave.is_sold_out
    && heldList.reverse.any (fun r =>
        (old.is_sold_out || old.num_available == r.quantity)
          && fave.sold_out_at == some (roundHalfCeil r.reserved_at))

/-- The tail of `process_favorite` (bot.py lines 239-273): the hold trigger
and the snipe-registry maintenance, run on every path that did not return
early. `s` and `effs` are the state and trace accumulated so far. -/
def afterUpdate (env : FavEnv) (s : BotState) (effs : List Effect)
    (fave : Favorite) : BotState × List Effect :=
  let fetched :=
    if fave.num_available ≠ 0 then
      let item := env.getItem fave.id
      (some item,
       (if item.num_available ≠ fave.num_available then
          [Effect.log .warning .updated]
        else [])
         ++ (if item.num_available ≠ 0 then [Effect.holdCalled item] else []))
    else (none, [])
  let effs1 := effs ++ fetched.2
  if !fave.is_check_again_later && s.snipes fave.id == some none then
    -- `_del_scheduled_snipe(fave.id, conflict_policy=do_nothing)`
    (s, effs1 ++ [Effect.addSchedule (delSnipeJobId fave.id)
        (env.now + API_FLAPPING_COOLDOWN) .doNothing])
  else if fave.is_check_again_later && (s.snipes fave.id).isNone then
    let item := fetched.1.getD (env.getItem fave.id)
    let effs2 :=
      match item.next_drop with
      | some t =>
        if env.snipeConflict then [Effect.log .error .conflictingId]
        else [Effect.addSchedule (snipeJobId item.id) t .exception,
              Effect.log .info .snipeScheduled]
      | none => [Effect.log .debug .noUpcomingDrop]
    ({ s with snipes :=
        Function.update s.snipes item.id (some item.next_drop) },
     effs1 ++ effs2)
  else
    (s, effs1)

/-- `process_favorite` (bot.py lines 184-273): one newly observed snapshot
`fave` processed against the bot's state. Returns the new state and the trace
of effects; an early `return` yields `(s, [])`. -/
def processFavorite (env : FavEnv) (s : BotState) (fave : Favorite) :
    BotState × List Effect :=
  match s.tracked fave.id with
  | some oldOpt =>
    -- `if (old_fave := self.tracked_items[fave.id]) == fave: return`
    if oldOpt = some fave then (s, [])
    else if (match oldOpt with
             | some old => suppressSelling old fave (s.held fave.id)
             | none => false) then (s, [])
    else if (match oldOpt with
             | some old => suppressSoldOutAt old fave (s.held fave.id)
             | none => false) then (s, [])
    else
      let s1 :=
        { s with tracked :=
            Function.update s.tracked fave.id (some (some fave)) }
      let effs :=
        match oldOpt with
        | some old =>
          let lvl : LogLevel :=
            if env.ignored fave.id || loweredSeverity old fave (s.held fave.id)
            then .debug else .info
          [Effect.log lvl .changed]
        | none =>
          if fave.is_interesting then
            [Effect.log (if env.ignored fave.id then .debug else .info)
               .firstSight]
          else []
      if env.ignored fave.id then (s1, effs)
      else afterUpdate env s1 effs fave
  | none =>
    if fave.is_interesting || !env.inactive fave.id then
      let s1 :=
        { s with tracked :=
            Function.update s.tracked fave.id (some (some fave)) }
      afterUpdate env s1 [Effect.log .warning .unknownOrInactive] fave
    else
      afterUpdate env s [] fave

/-! ## Theorems -/

/-- C10: `Price` addition and subtraction are defined only between two prices
with identical currency code and identical decimals — for every pair differing
in code or decimals both operations raise `ValueError` — and when defined, the
result preserves the code and decimals and its `minor_units` is the exact
integer sum (resp. difference) of the operands' `minor_units`; consequently,
for all compatible prices `p` and `q`, `(p + q) - q = p`. -/
theorem price_add_sub_correct (p q : Price) :
    (p.add q = Except.error PriceErr.incompatibleCurrencies
      ↔ p.code ≠ q.code ∨ p.decimals ≠ q.decimals) ∧
    (p.sub q = Except.error PriceErr.incompatibleCurrencies
      ↔ p.code ≠ q.code ∨ p.decimals ≠ q.decimals) ∧
    (∀ rr : Price, p.add q = Except.ok rr →
      rr.code = p.code ∧ rr.decimals = p.decimals
        ∧ rr.minor_units = p.minor_units + q.minor_units) ∧
    (∀ rr : Price, p.sub q = Except.ok rr →
      rr.code = p.code ∧ rr.decimals = p.decimals
        ∧ rr.minor_units = p.minor_units - q.minor_units) ∧
    ((p.add q).bind (fun x => x.sub q)
      = if p.code = q.code ∧ p.decimals = q.decimals then Except.ok p
        else Except.error PriceErr.incompatibleCurrencies) := by
  by_cases hc : p.code ≠ q.code ∨ p.decimals ≠ q.decimals
  · have hc' : ¬(p.code = q.code ∧ p.decimals = q.decimals) := by tauto
    simp [Price.add, Price.sub, hc, hc', Except.bind]
  · push_neg at hc
    obtain ⟨h1, h2⟩ := hc
    cases p with
    | mk pc pd pm =>
      cases q with
      | mk qc qd qm =>
        simp only at h1 h2
        subst h1
        subst h2
        simp [Price.add, Price.sub, Except.bind]

/-- Witness for `price_add_sub_correct` at concrete prices: 150 + 100 - 100 =
150 minor units of the same currency round-trips, and a mismatched pair
errors. -/
theorem price_add_sub_correct_witness :
    (Price.add ⟨"CAD", 2, 150⟩ ⟨"CAD", 2, 100⟩).bind
        (fun x => x.sub ⟨"CAD", 2, 100⟩)
      = Except.ok ⟨"CAD", 2, 150⟩
    ∧ Price.add ⟨"CAD", 2, 150⟩ ⟨"EUR", 2, 100⟩
      = Except.error PriceErr.incompatibleCurrencies := by
  constructor
  · have h := (price_add_sub_correct ⟨"CAD", 2, 150⟩ ⟨"CAD", 2, 100⟩).2.2.2.2
    rw [h]; simp
  · have h := (price_add_sub_correct ⟨"CAD", 2, 150⟩ ⟨"EUR", 2, 100⟩).1
    rw [h]; simp

/-- C4 counterexample: at total `t = 3` and voucher `v = 5` (both positive),
the denomination split `pay` computes is `[4, 1, 1, 1, 1]`, which sums to 8,
not to the total 3 — the claim's "sums exactly to t" fails for totals below
4 minor units (Python `[v] * div` with negative `div` silently drops the
negative voucher-sized correction). -/
theorem pay_amounts_claim_counterexample :
    payAmounts 3 5 = [4, 1, 1, 1, 1]
    ∧ (payAmounts 3 5).sum = 8
    ∧ (payAmounts 3 5).sum ≠ 3 := by
  refine ⟨by decide, by decide, by decide⟩

/-- C4 (amended): for every total `t` of at least 4 minor units and every
positive voucher amount `v`, the list of authorization amounts `pay` computes
sums exactly to `t` and has the shape: some number of lines equal to `v`,
then at most one remainder line `m` with `0 ≤ m < v`, then `k ≥ 4` lines of
exactly 1 minor unit. -/
theorem pay_amounts_split (t v : Int) (ht : 4 ≤ t) (hv : 0 < v) :
    ∃ (d k : Nat) (m : Int),
      payAmounts t v =
        List.replicate d v ++ (if m = 0 then [] else [m]) ++ List.replicate k 1
      ∧ 4 ≤ k ∧ 0 ≤ m ∧ m < v ∧ (payAmounts t v).sum = t := by
  have hv' : (0 : Int) ≤ v := le_of_lt hv
  have hvne : v ≠ 0 := ne_of_gt hv
  set numOnes : Int := max 4 (t.fdiv v) with hN
  have hN4 : (4 : Int) ≤ numOnes := le_max_left _ _
  have hNle : numOnes ≤ t := by
    apply max_le ht
    rw [Int.fdiv_eq_ediv t hv']
    exact Int.ediv_le_self v (by linarith)
  have hs : (0 : Int) ≤ t - numOnes := by linarith
  have hd0 : (0 : Int) ≤ (t - numOnes).fdiv v := by
    rw [Int.fdiv_eq_ediv _ hv']
    exact Int.ediv_nonneg hs hv'
  have hm0 : (0 : Int) ≤ (t - numOnes).fmod v := by
    rw [Int.fmod_eq_emod _ hv']
    exact Int.emod_nonneg _ hvne
  have hmv : (t - numOnes).fmod v < v := by
    rw [Int.fmod_eq_emod _ hv']
    exact Int.emod_lt_of_pos _ hv
  have hkey : v * ((t - numOnes).fdiv v) + (t - numOnes).fmod v = t - numOnes := by
    rw [Int.fdiv_eq_ediv _ hv', Int.fmod_eq_emod _ hv']
    exact Int.ediv_add_emod _ _
  have heq : payAmounts t v =
      List.replicate ((t - numOnes).fdiv v).toNat v
        ++ (if (t - numOnes).fmod v = 0 then [] else [(t - numOnes).fmod v])
        ++ List.replicate numOnes.toNat 1 := rfl
  refine ⟨((t - numOnes).fdiv v).toNat, numOnes.toNat, (t - numOnes).fmod v,
    heq, by omega, hm0, hmv, ?_⟩
  rw [heq]
  rw [List.sum_append, List.sum_append, List.sum_replicate, List.sum_replicate,
    nsmul_eq_mul, nsmul_eq_mul, Int.toNat_of_nonneg hd0,
    Int.toNat_of_nonneg (by linarith : (0 : Int) ≤ numOnes)]
  have hcomm := mul_comm v ((t - numOnes).fdiv v)
  split_ifs with hm
  · simp only [List.sum_nil]
    linarith
  · simp only [List.sum_cons, List.sum_nil]
    linarith

/-- Witness for `pay_amounts_split` at `t = 7`, `v = 5`
(the split is `[3, 1, 1, 1, 1]`). -/
theorem pay_amounts_split_witness :
    ∃ (d k : Nat) (m : Int),
      payAmounts 7 5 =
        List.replicate d 5 ++ (if m = 0 then [] else [m]) ++ List.replicate k 1
      ∧ 4 ≤ k ∧ 0 ≤ m ∧ m < 5 ∧ (payAmounts 7 5).sum = 7 :=
  pay_amounts_split 7 5 (by decide) (by decide)

/-- C6: the request pipeline raises `CaptchaError` exactly when a response has
HTTP status 403 and carries the bot-challenge marker header (`X-DD-B`); the
branch that raises it is also the only branch of the pipeline whose effects
stop the scheduler. -/
theorem captcha_iff_forbidden_ddb (r : HttpResp) :
    ((classify r).1 = ClassifyResult.captcha
      ↔ r.status = 403 ∧ r.hasDDB = true) ∧
    (PipeEffect.schedulerStop ∈ (classify r).2
      ↔ r.status = 403 ∧ r.hasDDB = true) := by
  by_cases hC : r.status = 403 ∧ r.hasDDB = true
  · obtain ⟨h403, hddb⟩ := hC
    have hcl : classify r =
        (.captcha, [.logDebugText, .ntfyCaptchaAlert, .schedulerStop]) := by
      unfold classify
      rw [if_neg (by rintro ⟨h, -⟩; omega), if_neg (by rintro ⟨h, -⟩; omega),
        if_neg (by rintro ⟨h, -⟩; omega), if_pos ⟨h403, hddb⟩]
    rw [hcl]
    exact ⟨⟨fun _ => ⟨h403, hddb⟩, fun _ => rfl⟩,
      ⟨fun _ => ⟨h403, hddb⟩, fun _ => by decide⟩⟩
  · have hout : (classify r).1 ≠ ClassifyResult.captcha
        ∧ PipeEffect.schedulerStop ∉ (classify r).2 := by
      unfold classify
      split_ifs with h1 h2 h3 h4 <;>
        first
          | exact absurd (by assumption) hC
          | exact ⟨by decide, by decide⟩
    exact ⟨⟨fun h => absurd h hout.1, fun h => absurd h hC⟩,
      ⟨fun h => absurd h hout.2, fun h => absurd h hC⟩⟩

/-- A 401 response on a credential-bearing, non-refresh endpoint. -/
def c2Resp401 : HttpResp :=
  { status := 401, endpoint := .ORDER_CREATE, hasDDB := false, body := .other }

/-- An environment where the endpoint answers 401 to every send while every
token refresh succeeds. -/
def c2LoopEnv : PostEnv :=
  { resp := fun _ => c2Resp401
    needsRefresh := fun _ => false
    refreshResult := fun _ => .success }

/-- C2 counterexample: when a credential-bearing endpoint answers 401 to every
send while the token-refresh endpoint keeps succeeding, `_post` performs a
third (and fourth, ...) forced refresh and resend instead of failing after the
second 401 — with fuel 3 the run has already made 3 sends and 3 forced
refreshes and is still recursing, and no invalid-credentials error is raised.
The recursion in `_post`'s 401 branch carries no "already retried" flag; it
stops only when a forced refresh itself fails. -/
theorem post_401_unbounded_counterexample :
    postRun c2LoopEnv 3 0 0 = (PostOutcome.fuelOut, 3, 3)
    ∧ 2 ≤ (postRun c2LoopEnv 3 0 0).2.2
    ∧ (postRun c2LoopEnv 3 0 0).1 ≠ PostOutcome.invalidCredentials := by
  refine ⟨by decide, by decide, by decide⟩

/-- C2 (amended): on a 401 the pipeline forces a credential refresh and
resends; it fails with the fatal invalid-credentials `ValueError` when a
forced refresh itself fails with a `TgtgApiError` — in particular, when the
resent request receives a second 401 and the second forced refresh fails, the
call fails fatally after exactly two sends and two forced refreshes. (If
forced refreshes keep succeeding, each further 401 triggers another
refresh-and-resend; the recursion is not bounded at one retry.) -/
theorem post_second_refresh_failure_fatal (env : PostEnv) (fuel : Nat)
    (hn0 : env.needsRefresh 0 = false) (hn1 : env.needsRefresh 1 = false)
    (hr0 : (classify (env.resp 0)).1 = ClassifyResult.refreshAndRetry)
    (hr1 : (classify (env.resp 1)).1 = ClassifyResult.refreshAndRetry)
    (hf0 : env.refreshResult 0 = RefreshResult.success)
    (hf1 : env.refreshResult 1 = RefreshResult.apiError) :
    postRun env (fuel + 2) 0 0 = (PostOutcome.invalidCredentials, 2, 2) := by
  have step1 : postRun env (fuel + 1) 1 1 = (PostOutcome.invalidCredentials, 1, 1) := by
    unfold postRun
    simp [hn1, hr1, hf1]
  unfold postRun
  simp [hn0, hr0, hf0, step1]

/-- An environment realizing the amended C2 scenario: two 401 responses, the
first forced refresh succeeds, the second fails with a `TgtgApiError`. -/
def c2FatalEnv : PostEnv :=
  { resp := fun _ => c2Resp401
    needsRefresh := fun _ => false
    refreshResult := fun n => if n = 0 then .success else .apiError }

/-- Witness for `post_second_refresh_failure_fatal`. -/
theorem post_second_refresh_failure_fatal_witness :
    postRun c2FatalEnv 2 0 0 = (PostOutcome.invalidCredentials, 2, 2) :=
  post_second_refresh_failure_fatal c2FatalEnv 0 rfl rfl (by decide) (by decide)
    (by decide) (by decide)

/-- C5: when the create-order response is `INSUFFICIENT_STOCK`, `reserve`
re-fetches the item and performs exactly one corrective re-reserve at the
server-reported maximum quantity `item.max_quantity`; when that retry
succeeds, that reservation is returned (trace: exactly the two create-order
calls, the second at the corrected quantity). -/
theorem reserve_insufficient_stock_retry (env : ReserveEnv) (q fuel : Nat)
    (r : Reservation)
    (h0 : env.respond 0 q = OrderResp.insufficientStock)
    (h1 : env.respond 1 (env.getItem 0).max_quantity = OrderResp.success r) :
    reserveRun env (fuel + 2) 0 q =
      (ReserveOutcome.ok r, [q, (env.getItem 0).max_quantity]) := by
  have step1 : reserveRun env (fuel + 1) 1 (env.getItem 0).max_quantity =
      (ReserveOutcome.ok r, [(env.getItem 0).max_quantity]) := by
    unfold reserveRun
    simp [h1]
  unfold reserveRun
  simp [h0, step1]

/-- The item of the spec's `INSUFFICIENT_STOCK` scenario: 4 available, no
purchase limit, so `max_quantity = 4`. -/
def c5Item : Item :=
  { id := 42, name := "Store (Surprise Bag)", tag := .X_ITEMS_LEFT,
    num_available := 4, pickup_interval := none, sold_out_at := none,
    packaging := none, purchase_limit := none, next_drop := none,
    blocked_until := none }

/-- The reservation returned by the corrective re-reserve in the C5 witness. -/
def c5Res : Reservation :=
  { id := "order-1", item_id := 42, state := .RESERVED, quantity := 4,
    total_price := { code := "CAD", decimals := 2, minor_units := 999 },
    reserved_at := 0 }

/-- Environment of the C5 witness: the first create-order call reports
insufficient stock, the second succeeds. -/
def c5Env : ReserveEnv :=
  { respond := fun n _ => if n = 0 then .insufficientStock else .success c5Res
    getItem := fun _ => c5Item }

/-- Witness for `reserve_insufficient_stock_retry`: `reserve` of quantity 10
with server max 4 makes exactly one corrective re-reserve at quantity 4 and
returns its reservation. -/
theorem reserve_insufficient_stock_retry_witness :
    reserveRun c5Env 2 0 10 = (ReserveOutcome.ok c5Res, [10, 4]) :=
  reserve_insufficient_stock_retry c5Env 10 0 c5Res (by decide) (by decide)

/-- The item of the C1 scenarios: 5 available, per-window purchase limit 3,
so `max_quantity = 3`. -/
def c1Item : Item :=
  { id := 42, name := "Store (Surprise Bag)", tag := .X_ITEMS_LEFT,
    num_available := 5, pickup_interval := none, sold_out_at := none,
    packaging := none, purchase_limit := some 3, next_drop := none,
    blocked_until := none }

/-- The reservation returned by the corrected retry in the C1 counterexample. -/
def c1Res : Reservation :=
  { id := "order-2", item_id := 42, state := .RESERVED, quantity := 3,
    total_price := { code := "CAD", decimals := 2, minor_units := 999 },
    reserved_at := 0 }

/-- Environment of the C1 counterexample: the first create-order call reports
`OVER_USER_WINDOW_LIMIT`, any later call succeeds. -/
def c1Env : ReserveEnv :=
  { respond := fun n _ => if n = 0 then .overUserWindowLimit else .success c1Res
    getItem := fun _ => c1Item }

/-- C1 counterexample: the claim has the comparison inverted. With requested
quantity 10 exceeding the stated purchase limit 3, `reserve` does NOT fail
with `LimitExceededError` — it retries at the corrected quantity 3 and
returns that reservation. Conversely, at requested quantity 2 (within the
limit, where the claim prescribes a corrected retry) the call fails
terminally with `LimitExceededError` after a single create-order call. -/
theorem reserve_over_limit_counterexample :
    c1Item.purchase_limit = some 3 ∧ 3 < 10
    ∧ reserveRun c1Env 2 0 10 = (ReserveOutcome.ok c1Res, [10, 3])
    ∧ (reserveRun c1Env 2 0 10).1 ≠ ReserveOutcome.err TgtgErr.limitExceeded
    ∧ reserveRun c1Env 2 0 2 = (ReserveOutcome.err TgtgErr.limitExceeded, [2]) := by
  refine ⟨rfl, by decide, by decide, by decide, by decide⟩

/-- C1 (amended): when the create-order response is `OVER_USER_WINDOW_LIMIT`,
`reserve` re-fetches the item; if the requested quantity is within (at most)
the server's stated per-window purchase limit, the call fails terminally with
`LimitExceededError` after that single create-order call; otherwise it retries
once at the corrected quantity `item.max_quantity`, and when that retry
succeeds it returns that reservation. -/
theorem reserve_over_window_limit (env : ReserveEnv) (q l fuel : Nat)
    (r : Reservation)
    (h0 : env.respond 0 q = OrderResp.overUserWindowLimit)
    (hl : (env.getItem 0).purchase_limit = some l) :
    (q ≤ l →
      reserveRun env (fuel + 2) 0 q = (ReserveOutcome.err TgtgErr.limitExceeded, [q]))
    ∧ (l < q →
        env.respond 1 (env.getItem 0).max_quantity = OrderResp.success r →
        reserveRun env (fuel + 2) 0 q =
          (ReserveOutcome.ok r, [q, (env.getItem 0).max_quantity])) := by
  constructor
  · intro hq
    unfold reserveRun
    simp [h0, hl, hq]
  · intro hq hs
    have hq' : ¬(q ≤ l) := by omega
    have step1 : reserveRun env (fuel + 1) 1 (env.getItem 0).max_quantity =
        (ReserveOutcome.ok r, [(env.getItem 0).max_quantity]) := by
      unfold reserveRun
      simp [hs]
    unfold reserveRun
    simp [h0, hl, hq', step1]

/-- Witness for `reserve_over_window_limit` at the concrete C1 environment
(requested quantity 10, stated limit 3). -/
theorem reserve_over_window_limit_witness :
    (10 ≤ 3 →
      reserveRun c1Env 2 0 10 = (ReserveOutcome.err TgtgErr.limitExceeded, [10]))
    ∧ (3 < 10 →
        c1Env.respond 1 (c1Env.getItem 0).max_quantity = OrderResp.success c1Res →
        reserveRun c1Env 2 0 10 =
          (ReserveOutcome.ok c1Res, [10, (c1Env.getItem 0).max_quantity])) :=
  reserve_over_window_limit c1Env 10 3 0 c1Res (by decide) (by decide)

/-- C7: a newly observed snapshot equal (field-for-field) to the stored one
makes `process_favorite` a complete no-op: the state (tracked-items map,
held-reservations collection, scheduled-snipe registry) is returned unchanged
and no effect — no log line, no hold call, no job registration — is emitted. -/
theorem process_favorite_unchanged_noop (env : FavEnv) (s : BotState)
    (fave : Favorite) (h : s.tracked fave.id = some (some fave)) :
    processFavorite env s fave = (s, []) := by
  unfold processFavorite
  rw [h]
  simp

/-- A quiet snapshot used by the C7 witness. -/
def c7Fave : Favorite :=
  { id := 42, name := "Store (Surprise Bag)", tag := .NOTHING_TO_SAVE_TODAY,
    num_available := 0, pickup_interval := none, sold_out_at := none,
    packaging := none }

/-- A bot state that stores `c7Fave` for item 42. -/
def c7State : BotState :=
  { tracked := fun i => if i = 42 then some (some c7Fave) else none
    held := fun _ => []
    snipes := fun _ => none }

/-- A default environment for the `process_favorite` witnesses. -/
def cFavEnv : FavEnv :=
  { ignored := fun _ => false
    inactive := fun _ => false
    getItem := fun _ => c5Item
    snipeConflict := false
    now := 0 }

/-- Witness for `process_favorite_unchanged_noop`. -/
theorem process_favorite_unchanged_noop_witness :
    processFavorite cFavEnv c7State c7Fave = (c7State, []) :=
  process_favorite_unchanged_noop cFavEnv c7State c7Fave (by decide)

/-- C3 (amended): for a tracked item whose stored snapshot is sold out, a new
snapshot matching either flapping pattern — (a) selling again with an
availability equal to a currently held reservation's quantity, or (b) still
sold out with a `sold_out_at` strictly earlier than the most recent held
reservation's `reserved_at` rounded to the nearest whole second with
half-second ties rounding up (the source's `round(mode="half_ceil")`, not
"rounded to the nearest half-second" as the claim states) — is suppressed:
the state is unchanged and no effect is emitted. -/
theorem process_favorite_flap_suppressed (env : FavEnv) (s : BotState)
    (fave old : Favorite) (h : s.tracked fave.id = some (some old))
    (hsup : suppressSelling old fave (s.held fave.id) = true
        ∨ suppressSoldOutAt old fave (s.held fave.id) = true) :
    processFavorite env s fave = (s, []) := by
  unfold processFavorite
  rw [h]
  by_cases heq : (some old : Option Favorite) = some fave
  · simp [heq]
  · cases hss : suppressSelling old fave (s.held fave.id) with
    | true => simp [heq, hss]
    | false =>
      rcases hsup with h1 | h1
      · rw [hss] at h1
        exact absurd h1 (by decide)
      · simp [heq, hss, h1]

/-- Stored snapshot of the C3 witness scenario: sold out. -/
def c3SupOld : Favorite :=
  { id := 43, name := "Store (Surprise Bag)", tag := .SOLD_OUT,
    num_available := 0, pickup_interval := none,
    sold_out_at := some 9000000000, packaging := none }

/-- New snapshot of the C3 witness scenario: selling again with availability 3. -/
def c3SupNew : Favorite :=
  { id := 43, name := "Store (Surprise Bag)", tag := .X_ITEMS_LEFT,
    num_available := 3, pickup_interval := none, sold_out_at := none,
    packaging := none }

/-- A held reservation of quantity 3 for item 43. -/
def c3SupRes : Reservation :=
  { id := "order-3", item_id := 43, state := .RESERVED, quantity := 3,
    total_price := { code := "CAD", decimals := 2, minor_units := 999 },
    reserved_at := 10300000000 }

/-- Bot state of the C3 witness scenario. -/
def c3SupState : BotState :=
  { tracked := fun i => if i = 43 then some (some c3SupOld) else none
    held := fun i => if i = 43 then [c3SupRes] else []
    snipes := fun _ => none }

/-- Witness for `process_favorite_flap_suppressed` (pattern (a): sold-out to
selling with availability matching the held reservation's quantity 3). -/
theorem process_favorite_flap_suppressed_witness :
    processFavorite cFavEnv c3SupState c3SupNew = (c3SupState, []) :=
  process_favorite_flap_suppressed cFavEnv c3SupState c3SupNew c3SupOld
    (by decide) (Or.inl (by decide))

/-- Modelled from the claim's words, for comparison with the source:
"`reserved_at` rounded to the nearest half-second" read literally, i.e.
rounding to the nearest multiple of half a second (a tie rounding up). The
source instead rounds to the nearest whole second (`round(mode="half_ceil")`,
embedded as `roundHalfCeil`). -/
def roundNearestHalfSecond (t : Instant) : Instant :=
  ((t + 250000000).fdiv 500000000) * 500000000

/-- The claim's pattern (b), read literally: both snapshots sold out and
`sold_out_at` strictly earlier than the most recent held reservation's
`reserved_at` rounded to the nearest half-second. -/
def claimSuppressSoldOutAt (old fave : Favorite) (heldList : List Reservation) :
    Bool :=
  old.is_sold_out && fave.is_sold_out
    && (match fave.sold_out_at, heldList.getLast? with
        | some t, some last => decide (t < roundNearestHalfSecond last.reserved_at)
        | _, _ => false)

/-- Stored snapshot of the C3 counterexample: sold out. -/
def c3Old : Favorite :=
  { id := 44, name := "Store (Surprise Bag)", tag := .SOLD_OUT,
    num_available := 0, pickup_interval := none,
    sold_out_at := some 9000000000, packaging := none }

/-- New snapshot of the C3 counterexample: still sold out, with
`sold_out_at` 10.2 s. -/
def c3New : Favorite :=
  { id := 44, name := "Store (Surprise Bag)", tag := .SOLD_OUT,
    num_available := 0, pickup_interval := none,
    sold_out_at := some 10200000000, packaging := none }

/-- A held reservation for item 44 with `reserved_at` 10.3 s. -/
def c3Res : Reservation :=
  { id := "order-4", item_id := 44, state := .RESERVED, quantity := 2,
    total_price := { code := "CAD", decimals := 2, minor_units := 999 },
    reserved_at := 10300000000 }

/-- Bot state of the C3 counterexample. -/
def c3State : BotState :=
  { tracked := fun i => if i = 44 then some (some c3Old) else none
    held := fun i => if i = 44 then [c3Res] else []
    snipes := fun _ => none }

/-- C3 counterexample: with `sold_out_at = 10.2 s` and the most recent held
reservation's `reserved_at = 10.3 s`, the claim's literal condition (b) holds
(10.2 s is earlier than 10.3 s rounded to the nearest half-second, 10.5 s),
yet `process_favorite` does NOT suppress the update: the source compares
against `reserved_at` rounded to the nearest whole second (10 s, half-ceil),
10.2 s is not earlier than that, so the stored snapshot is replaced and a
"Changed" line is logged. -/
theorem process_favorite_half_second_counterexample :
    c3Old.is_sold_out = true ∧ c3New.is_sold_out = true
    ∧ c3State.tracked c3New.id = some (some c3Old)
    ∧ c3New ≠ c3Old
    ∧ claimSuppressSoldOutAt c3Old c3New (c3State.held c3New.id) = true
    ∧ (processFavorite cFavEnv c3State c3New).1.tracked c3New.id
        = some (some c3New)
    ∧ (processFavorite cFavEnv c3State c3New).2
        = [Effect.log .info .changed] := by
  refine ⟨by decide, by decide, by decide, by decide, by decide, by decide,
    by decide⟩

/-- C8: when `hold(item)` succeeds with reservation `r`, it appends `r` to the
held-reservation deque for `item.id` (leaving the tracked-items map and the
snipe registry untouched), returns `r`, and its effect trace is exactly: the
success log, the notification publish, and the registration of the one-shot
catch job with id `"catch-reservation-" ++ r.id` at instant
`r.expires_at + CATCH_RESERVATION_DELAY` — which equals
`r.reserved_at` + 4 minutes + 1 second — under the `exception` conflict
policy (a singleton per reservation id). -/
theorem hold_success (s : BotState) (item : Item) (r : Reservation) :
    (holdRun (.ok r) item s).1.held item.id = s.held item.id ++ [r]
    ∧ (holdRun (.ok r) item s).1.tracked = s.tracked
    ∧ (holdRun (.ok r) item s).1.snipes = s.snipes
    ∧ (holdRun (.ok r) item s).2.2 = some r
    ∧ (holdRun (.ok r) item s).2.1 =
        [Effect.log .success .heldOk,
         Effect.ntfyHeld r.quantity item.name,
         Effect.addSchedule (catchJobId r)
           (r.expires_at + CATCH_RESERVATION_DELAY) ConflictPolicy.exception]
    ∧ catchJobId r = "catch-reservation-" ++ r.id
    ∧ r.expires_at + CATCH_RESERVATION_DELAY
        = r.reserved_at + (4 * 60 + 1) * 1000000000 := by
  refine ⟨?_, rfl, rfl, rfl, rfl, rfl, ?_⟩
  · show Function.update s.held item.id (s.held item.id ++ [r]) item.id = _
    simp
  · unfold Reservation.expires_at reservationTTL CATCH_RESERVATION_DELAY
    ring

/-- C9: when `catch(held)` runs with `held` occurring (once) in the
held-reservation deque for `held.item_id`, the superseded reservation is
removed from that deque regardless of the outcome of the re-reserve
(success or any `TgtgApiError`); on success with a new reservation `r`
(distinct from `held`), `r` is appended to the deque, a new catch job for `r`
is armed, and `r` is returned. -/
theorem catch_removes_superseded (s : BotState) (held : Reservation)
    (o : Except TgtgErr Reservation)
    (hcount : (s.held held.item_id).count held = 1)
    (hnew : ∀ r : Reservation, o = Except.ok r → r ≠ held) :
    held ∉ (catchRun o held s).1.held held.item_id
    ∧ (∀ r : Reservation, o = Except.ok r →
        r ∈ (catchRun o held s).1.held held.item_id
        ∧ Effect.addSchedule (catchJobId r)
            (r.expires_at + CATCH_RESERVATION_DELAY) ConflictPolicy.exception
            ∈ (catchRun o held s).2.1
        ∧ (catchRun o held s).2.2 = CatchResult.ret (some r)) := by
  have hmem : held ∈ s.held held.item_id := by
    exact List.count_pos_iff.mp (by omega : 0 < (s.held held.item_id).count held)
  cases o with
  | error e =>
    have hheld :
        (catchRun (Except.error e) held s).1.held held.item_id
          = (s.held held.item_id).erase held := by
      by_cases he : e = TgtgErr.limitExceeded <;>
        simp [catchRun, removeHeld, untrackItem, he, hmem]
    constructor
    · rw [hheld]
      rw [← List.count_eq_zero (a := held)]
      rw [List.count_erase_self]
      omega
    · intro r hr
      exact absurd hr (by simp)
  | ok r =>
    have hne : r ≠ held := hnew r rfl
    have hmem1 : held ∈ s.held held.item_id ++ [r] :=
      List.mem_append.mpr (Or.inl hmem)
    have hheld :
        (catchRun (Except.ok r) held s).1.held held.item_id
          = (s.held held.item_id ++ [r]).erase held := by
      simp [catchRun, removeHeld, hmem1]
    have hcnt : (s.held held.item_id ++ [r]).count held = 1 := by
      rw [List.count_append]
      simp [List.count_singleton', hne]
      omega
    refine ⟨?_, ?_⟩
    · rw [hheld]
      rw [← List.count_eq_zero (a := held)]
      rw [List.count_erase_self]
      omega
    · intro r' hr'
      have : r' = r := by
        injection hr' with h
        exact h.symm
      subst this
      refine ⟨?_, ?_, ?_⟩
      · rw [hheld]
        exact (List.mem_erase_of_ne hne).mpr
          (List.mem_append.mpr (Or.inr (List.mem_singleton.mpr rfl)))
      · simp [catchRun, removeHeld, hmem1]
      · simp [catchRun, removeHeld, hmem1]

/-- The superseded held reservation of the C9 witness. -/
def c9Held : Reservation :=
  { id := "order-old", item_id := 7, state := .RESERVED, quantity := 2,
    total_price := { code := "CAD", decimals := 2, minor_units := 999 },
    reserved_at := 1000000000 }

/-- The fresh reservation obtained by the re-reserve in the C9 witness. -/
def c9New : Reservation :=
  { id := "order-new", item_id := 7, state := .RESERVED, quantity := 2,
    total_price := { code := "CAD", decimals := 2, minor_units := 999 },
    reserved_at := 2000000000 }

/-- Bot state of the C9 witness: item 7 holds exactly `c9Held`. -/
def c9State : BotState :=
  { tracked := fun _ => none
    held := fun i => if i = 7 then [c9Held] else []
    snipes := fun _ => none }

/-- The successful re-reserve outcome of the C9 witness. -/
def c9Out : Except TgtgErr Reservation := Except.ok c9New

/-- Witness for `catch_removes_superseded` at a successful re-reserve. -/
theorem catch_removes_superseded_witness :
    c9Held ∉ (catchRun c9Out c9Held c9State).1.held c9Held.item_id
    ∧ (∀ r : Reservation, c9Out = Except.ok r →
        r ∈ (catchRun c9Out c9Held c9State).1.held c9Held.item_id
        ∧ Effect.addSchedule (catchJobId r)
            (r.expires_at + CATCH_RESERVATION_DELAY) ConflictPolicy.exception
            ∈ (catchRun c9Out c9Held c9State).2.1
        ∧ (catchRun c9Out c9Held c9State).2.2
            = CatchResult.ret (some r)) :=
  catch_removes_superseded c9State c9Held c9Out (by decide)
    (by
      intro r h
      have h2 : c9New = r := by
        simpa [c9Out] using h
      subst h2
      decide)

end Tgtg
